import Mathlib

/-!
Shallow embedding of the gesture-to-chord trigger logic of this repository.

The repository contains two implementations:

* `src/main.py` — a script whose main loop keeps the mutable globals
  `last_played_fingers : int` (initially `-1`) and
  `last_sound_play_time : float` (initially `0`), with
  `debounce_time = 0.3` seconds, and runs per frame:

  ```
  if fingers_up_count != last_played_fingers and pygame_mixer_ok:
      if (current_time - last_sound_play_time > debounce_time):
          pygame.mixer.stop()
          if fingers_up_count in chord_sounds:
              chord_sounds[fingers_up_count].play()
              last_played_fingers = fingers_up_count
              last_sound_play_time = current_time
          else:
              last_played_fingers = 0
  elif not results.multi_hand_landmarks and last_played_fingers != -1:
      if pygame_mixer_ok:
          pygame.mixer.stop()
      last_played_fingers = -1
  ```

  where `fingers_up_count` is `0` when no hand is detected and otherwise the
  extended-finger count of the detected hand.

* `src/sample.py` — class `GestureChordPlayer` with fields
  `last_played_chord` (initially `None`), `last_play_time` (initially `0`)
  and `chord_cooldown = 1000` milliseconds, with method

  ```
  def play_chord(self, num_fingers):
      current_time = pygame.time.get_ticks()
      if (num_fingers in self.chords and
          (self.last_played_chord != num_fingers or
           current_time - self.last_play_time > self.chord_cooldown)):
          pygame.mixer.stop()
          self.chords[num_fingers].play()
          self.last_played_chord = num_fingers
          self.last_play_time = current_time
  ```

  called from the frame loop `run` only when a hand is detected and its
  extended-finger count is positive; `run` takes no action when no hand is
  detected.

Time stamps are embedded as rationals; audio-API calls (`pygame.mixer.stop()`
and `Sound.play()`) are embedded as an emitted list of `AudioAction`s per frame.
-/

unseal Rat.sub Rat.add

/-- An audio-API call made by the trigger logic during one frame:
`AudioAction.stop` is `pygame.mixer.stop()` (stops every playing sample),
`AudioAction.play c` is `chord_sounds[c].play()`. -/
inductive AudioAction where
  | stop : AudioAction
  | play : Nat → AudioAction
  deriving DecidableEq, Repr

/-- One per-frame input to the trigger logic: whether a hand was detected,
the extended-finger classification of that hand (meaningful only when
`handPresent` is `true`; `main.py` leaves `fingers_up_count = 0` when no hand
is detected), and the frame's time stamp. -/
structure Event where
  handPresent : Bool
  fingers : Nat
  time : ℚ
  deriving DecidableEq, Repr

/-- Number of `AudioAction.play` actions in a list of emitted actions. -/
def countPlays (l : List AudioAction) : Nat :=
  l.countP fun a => match a with
    | .play _ => true
    | .stop => false

/-- `True` iff the action is a `play`. -/
def AudioAction.isPlay : AudioAction → Bool
  | .play _ => true
  | .stop => false

/-- The static `finger_chord_map` of `main.py` (finger count → WAV filename). -/
def finger_chord_map : List (Nat × String) :=
  [(1, "C_chord.wav"), (2, "Am_chord.wav"), (3, "F_chord.wav"),
   (4, "G_chord.wav"), (5, "C_chord.wav")]

/-- The keys of `main.py`'s `finger_chord_map`. -/
def mainChordKeys : List Nat := finger_chord_map.map Prod.fst

/-- The keys of `sample.py`'s `self.chords` dictionary. -/
def sampleChordKeys : List Nat := [1, 2, 3, 4]

/-- `main.py`'s `debounce_time = 0.3` seconds (`0.3 = 3/10`). -/
def debounce_time : ℚ := mkRat 3 10

/-- `sample.py`'s `self.chord_cooldown = 1000` milliseconds. -/
def chord_cooldown : ℚ := 1000

/-- The mutable trigger state of `main.py`:
`last_played_fingers` (an `int`, `-1` meaning nothing played yet) and
`last_sound_play_time`. -/
structure MainState where
  lastPlayedFingers : Int
  lastSoundPlayTime : ℚ
  deriving DecidableEq, Repr

/-- `main.py`'s initial trigger state: `last_played_fingers = -1`,
`last_sound_play_time = 0`. -/
def mainInit : MainState := ⟨-1, 0⟩

/-- One iteration of `main.py`'s chord-playing logic (lines 149–173).
`chordSounds` is the set of keys of the loaded `chord_sounds` dictionary and
`mixerOk` is `pygame_mixer_ok`.  When no hand is present,
`fingers_up_count` is `0`.  Returns the updated state and the audio-API
calls made, in order. -/
def mainStep (mixerOk : Bool) (chordSounds : List Nat) (debounce : ℚ)
    (s : MainState) (e : Event) : MainState × List AudioAction :=
  let fingersUp : Nat := if e.handPresent then e.fingers else 0
  if (fingersUp : Int) ≠ s.lastPlayedFingers ∧ mixerOk = true then
    if e.time - s.lastSoundPlayTime > debounce then
      if fingersUp ∈ chordSounds then
        (⟨(fingersUp : Int), e.time⟩, [AudioAction.stop, AudioAction.play fingersUp])
      else
        (⟨0, s.lastSoundPlayTime⟩, [AudioAction.stop])
    else
      (s, [])
  else if e.handPresent = false ∧ s.lastPlayedFingers ≠ -1 then
    (⟨-1, s.lastSoundPlayTime⟩, if mixerOk then [AudioAction.stop] else [])
  else
    (s, [])

/-- Run `main.py`'s per-frame chord-playing logic over a sequence of frames,
concatenating the emitted actions in order. -/
def runMain (mixerOk : Bool) (chordSounds : List Nat) (debounce : ℚ) :
    MainState → List Event → MainState × List AudioAction
  | s, [] => (s, [])
  | s, e :: es =>
    let p := mainStep mixerOk chordSounds debounce s e
    let q := runMain mixerOk chordSounds debounce p.1 es
    (q.1, p.2 ++ q.2)

/-- The mutable trigger state of `sample.py`'s `GestureChordPlayer`:
`last_played_chord` (`None` initially) and `last_play_time`. -/
structure SampleState where
  lastPlayedChord : Option Nat
  lastPlayTime : ℚ
  deriving DecidableEq, Repr

/-- `sample.py`'s initial trigger state: `last_played_chord = None`,
`last_play_time = 0`. -/
def sampleInit : SampleState := ⟨none, 0⟩

/-- `GestureChordPlayer.play_chord` (sample.py lines 61–80): plays when the
count is mapped and either differs from the last played chord or the
cooldown has elapsed; `pygame.mixer.stop()` precedes every play. -/
def play_chord (chords : List Nat) (cooldown : ℚ) (s : SampleState)
    (numFingers : Nat) (currentTime : ℚ) : SampleState × List AudioAction :=
  if numFingers ∈ chords ∧
      (s.lastPlayedChord ≠ some numFingers ∨
        currentTime - s.lastPlayTime > cooldown) then
    (⟨some numFingers, currentTime⟩,
      [AudioAction.stop, AudioAction.play numFingers])
  else
    (s, [])

/-- One iteration of `sample.py`'s frame loop `run` (lines 119–130) as far as
the trigger state is concerned: when a hand is detected and its finger count
is positive, `play_chord` is invoked; otherwise nothing happens (hand loss is
ignored). -/
def sampleLoopStep (chords : List Nat) (cooldown : ℚ)
    (s : SampleState) (e : Event) : SampleState × List AudioAction :=
  if e.handPresent = true ∧ 0 < e.fingers then
    play_chord chords cooldown s e.fingers e.time
  else
    (s, [])

/-- Run `sample.py`'s per-frame trigger logic over a sequence of frames. -/
def runSample (chords : List Nat) (cooldown : ℚ) :
    SampleState → List Event → SampleState × List AudioAction
  | s, [] => (s, [])
  | s, e :: es =>
    let p := sampleLoopStep chords cooldown s e
    let q := runSample chords cooldown p.1 es
    (q.1, p.2 ++ q.2)

/-- A detector-reported hand landmark: normalized image-plane coordinates.
Only the vertical coordinate `y` is inspected by the classifiers. -/
structure Landmark where
  x : ℚ
  y : ℚ
  deriving DecidableEq, Repr

/-- A landmark set: exactly 21 indexed points
(MediaPipe hand-landmark indices). -/
def LandmarkSet : Type := Fin 21 → Landmark

/-- The four non-thumb fingertip/PIP index pairs used by `main.py`
(lines 115–116): tips `[8, 12, 16, 20]` zipped with PIPs `[6, 10, 14, 18]`. -/
def fingerTipPipPairs : List (Fin 21 × Fin 21) :=
  [(8, 6), (12, 10), (16, 14), (20, 18)]

/-- `main.py`'s finger-counting logic (lines 115–133): a non-thumb finger
counts as extended when its tip's `y` is smaller than its PIP joint's `y`;
the thumb (tip 4) counts when its tip's `y` is smaller than both the thumb
IP joint's (3) and the thumb MCP joint's (2). -/
def countFingersMain (lm : LandmarkSet) : Nat :=
  let nonThumb := fingerTipPipPairs.foldl
    (fun acc p => if (lm p.1).y < (lm p.2).y then acc + 1 else acc) 0
  if (lm 4).y < (lm 3).y ∧ (lm 4).y < (lm 2).y then nonThumb + 1 else nonThumb

/-- The fingertip indices inspected by `sample.py`'s
`count_extended_fingers` (lines 43–48): index, middle, ring and pinky tips
only — the thumb tip (4) is absent. -/
def sampleFingerTips : List (Fin 21) := [8, 12, 16, 20]

/-- `GestureChordPlayer.count_extended_fingers` (sample.py lines 38–59):
for each of the four non-thumb fingertips, the finger counts as extended
when the tip's `y` is smaller than the `y` of landmark `tip - 2`
(the corresponding middle joint).  No thumb check. -/
def count_extended_fingers (lm : LandmarkSet) : Nat :=
  sampleFingerTips.foldl
    (fun acc tip => if (lm tip).y < (lm (tip - 2)).y then acc + 1 else acc) 0

/-- One iteration of `sample.py`'s frame loop starting from the raw landmark
set: when a hand is detected, its finger count is computed by
`count_extended_fingers` and, if positive, `play_chord` is invoked. -/
def sampleFrame (chords : List Nat) (cooldown : ℚ) (s : SampleState)
    (handPresent : Bool) (lm : LandmarkSet) (t : ℚ) :
    SampleState × List AudioAction :=
  if handPresent then
    let numFingers := count_extended_fingers lm
    if 0 < numFingers then
      play_chord chords cooldown s numFingers t
    else
      (s, [])
  else
    (s, [])

/-- Effect of one audio-API call on the multiset of samples currently in the
playing state that were triggered by this system: `pygame.mixer.stop()` halts
them all, `play c` adds an instance of sample `c`. -/
def applyAudio (playing : List Nat) : AudioAction → List Nat
  | .stop => []
  | .play c => playing ++ [c]

/-- Samples in the playing state after a list of audio-API calls. -/
def playingAfter (playing : List Nat) (l : List AudioAction) : List Nat :=
  l.foldl applyAudio playing

/-- A landmark set in which every fingertip (indices 4, 8, 12, 16, 20) sits
above (smaller `y`) all other landmarks: all five fingers read as extended. -/
def lmAllExtended : LandmarkSet := fun i =>
  ⟨0, if i.val = 4 ∨ i.val = 8 ∨ i.val = 12 ∨ i.val = 16 ∨ i.val = 20
      then 0 else 1⟩

/-- A landmark set in which every fingertip sits below (larger `y`) all other
landmarks: no finger reads as extended. -/
def lmNoneExtended : LandmarkSet := fun i =>
  ⟨0, if i.val = 4 ∨ i.val = 8 ∨ i.val = 12 ∨ i.val = 16 ∨ i.val = 20
      then 1 else 0⟩

/-- A landmark set in which only the index fingertip (8) sits above its PIP
joint: exactly one finger reads as extended. -/
def lmIndexOnly : LandmarkSet := fun i =>
  ⟨0, if i.val = 8 then 0 else 1⟩

/-! ### Helper lemmas about single steps -/

/-- A hand-present event whose classification equals `last_played_fingers`
is a no-op in `main.py`: the outer condition `fingers_up_count !=
last_played_fingers` fails and the hand-loss branch does not apply. -/
theorem mainStep_same_class (mk : Bool) (cs : List Nat) (db : ℚ)
    (s : MainState) (e : Event) (hp : e.handPresent = true)
    (hc : (e.fingers : Int) = s.lastPlayedFingers) :
    mainStep mk cs db s e = (s, []) := by
  simp [mainStep, hp, hc]

/-- A hand-present event arriving within the debounce interval of the last
play is a no-op in `main.py`, whatever its classification. -/
theorem mainStep_within_debounce (mk : Bool) (cs : List Nat) (db : ℚ)
    (s : MainState) (e : Event) (hp : e.handPresent = true)
    (ht : ¬(e.time - s.lastSoundPlayTime > db)) :
    mainStep mk cs db s e = (s, []) := by
  simp [mainStep, hp, ht]

/-- A hand-present event with a mapped classification that differs from
`last_played_fingers`, arriving after the debounce interval, stops any
current sound and plays the mapped sample. -/
theorem mainStep_play (cs : List Nat) (db : ℚ) (s : MainState) (e : Event)
    (hp : e.handPresent = true)
    (hne : (e.fingers : Int) ≠ s.lastPlayedFingers)
    (ht : e.time - s.lastSoundPlayTime > db) (hm : e.fingers ∈ cs) :
    mainStep true cs db s e =
      (⟨(e.fingers : Int), e.time⟩,
        [AudioAction.stop, AudioAction.play e.fingers]) := by
  simp [mainStep, hp, hne, ht, hm]

/-- With the mixer disabled and nothing ever played, `main.py`'s loop body
leaves the trigger state alone and makes no audio-API call. -/
theorem mainStep_mixer_off (cs : List Nat) (db : ℚ) (s : MainState)
    (e : Event) (h : s.lastPlayedFingers = -1) :
    mainStep false cs db s e = (s, []) := by
  simp [mainStep, h]

/-- Iterated form of `mainStep_mixer_off`. -/
theorem runMain_mixer_off (cs : List Nat) (db : ℚ) (es : List Event) :
    ∀ s : MainState, s.lastPlayedFingers = -1 →
      runMain false cs db s es = (s, []) := by
  induction es with
  | nil => intro s _; rfl
  | cons e es ih =>
    intro s h
    simp [runMain, mainStep_mixer_off cs db s e h, ih s h]

/-- A run of hand-present events all carrying the class recorded in
`last_played_fingers` is a no-op in `main.py`. -/
theorem runMain_same_class (mk : Bool) (cs : List Nat) (db : ℚ) (c : Nat)
    (es : List Event) :
    ∀ s : MainState, s.lastPlayedFingers = (c : Int) →
      (∀ e ∈ es, e.handPresent = true ∧ e.fingers = c) →
      runMain mk cs db s es = (s, []) := by
  induction es with
  | nil => intro s _ _; rfl
  | cons e es ih =>
    intro s hs hall
    obtain ⟨hp, hf⟩ := hall e (List.mem_cons_self e es)
    have h1 : mainStep mk cs db s e = (s, []) :=
      mainStep_same_class mk cs db s e hp (by rw [hf, hs])
    have h2 := ih s hs fun x hx => hall x (List.mem_cons_of_mem e hx)
    simp [runMain, h1, h2]

/-- In `sample.py`, an event carrying the last played chord within the
cooldown is suppressed. -/
theorem sampleLoopStep_suppressed (chords : List Nat) (cd : ℚ)
    (s : SampleState) (e : Event) (c : Nat)
    (hs : s.lastPlayedChord = some c) (hf : e.fingers = c)
    (ht : e.time - s.lastPlayTime ≤ cd) :
    sampleLoopStep chords cd s e = (s, []) := by
  simp [sampleLoopStep, play_chord, hs, hf, not_lt.mpr ht]

/-- Iterated form of `sampleLoopStep_suppressed`. -/
theorem runSample_suppressed (chords : List Nat) (cd : ℚ) (c : Nat)
    (es : List Event) :
    ∀ s : SampleState, s.lastPlayedChord = some c →
      (∀ e ∈ es, e.fingers = c ∧ e.time - s.lastPlayTime ≤ cd) →
      runSample chords cd s es = (s, []) := by
  induction es with
  | nil => intro s _ _; rfl
  | cons e es ih =>
    intro s hs hall
    obtain ⟨hf, ht⟩ := hall e (List.mem_cons_self e es)
    have h1 := sampleLoopStep_suppressed chords cd s e c hs hf ht
    have h2 := ih s hs fun x hx => hall x (List.mem_cons_of_mem e hx)
    simp [runSample, h1, h2]

/-! ### Shape of the per-frame action lists -/

/-- Every iteration of `main.py`'s loop body emits either nothing, a bare
stop, or a stop immediately followed by one play. -/
theorem mainStep_shape (mk : Bool) (cs : List Nat) (db : ℚ)
    (s : MainState) (e : Event) :
    (mainStep mk cs db s e).2 = [] ∨
      (mainStep mk cs db s e).2 = [AudioAction.stop] ∨
      ∃ c, (mainStep mk cs db s e).2 = [AudioAction.stop, AudioAction.play c] := by
  simp only [mainStep]
  repeat' split
  all_goals first
    | exact Or.inl rfl
    | exact Or.inr (Or.inl rfl)
    | exact Or.inr (Or.inr ⟨_, rfl⟩)

/-- Every iteration of `sample.py`'s loop body emits either nothing or a
stop immediately followed by one play. -/
theorem sampleLoopStep_shape (chords : List Nat) (cd : ℚ)
    (s : SampleState) (e : Event) :
    (sampleLoopStep chords cd s e).2 = [] ∨
      ∃ c, (sampleLoopStep chords cd s e).2 =
        [AudioAction.stop, AudioAction.play c] := by
  simp only [sampleLoopStep, play_chord]
  repeat' split
  all_goals first
    | exact Or.inl rfl
    | exact Or.inr ⟨_, rfl⟩

theorem playingAfter_append (p : List Nat) (l1 l2 : List AudioAction) :
    playingAfter p (l1 ++ l2) = playingAfter (playingAfter p l1) l2 :=
  List.foldl_append applyAudio p l1 l2

/-- Running `main.py`'s loop never leaves more than one sample playing,
provided at most one was playing to begin with. -/
theorem runMain_playing (mk : Bool) (cs : List Nat) (db : ℚ)
    (es : List Event) :
    ∀ (s : MainState) (p : List Nat), p.length ≤ 1 →
      (playingAfter p (runMain mk cs db s es).2).length ≤ 1 := by
  induction es with
  | nil => intro s p hp; simpa [runMain, playingAfter] using hp
  | cons e es ih =>
    intro s p hp
    simp only [runMain]
    rw [playingAfter_append]
    rcases mainStep_shape mk cs db s e with h | h | ⟨c, h⟩ <;> rw [h]
    · exact ih _ p hp
    · exact ih _ [] (by simp)
    · exact ih _ _ (le_of_eq (by simp [playingAfter, applyAudio]))

/-- Running `sample.py`'s loop never leaves more than one sample playing,
provided at most one was playing to begin with. -/
theorem runSample_playing (chords : List Nat) (cd : ℚ) (es : List Event) :
    ∀ (s : SampleState) (p : List Nat), p.length ≤ 1 →
      (playingAfter p (runSample chords cd s es).2).length ≤ 1 := by
  induction es with
  | nil => intro s p hp; simpa [runSample, playingAfter] using hp
  | cons e es ih =>
    intro s p hp
    simp only [runSample]
    rw [playingAfter_append]
    rcases sampleLoopStep_shape chords cd s e with h | ⟨c, h⟩ <;> rw [h]
    · exact ih _ p hp
    · exact ih _ _ (le_of_eq (by simp [playingAfter, applyAudio]))

theorem countPlays_nil : countPlays [] = 0 := rfl

theorem countPlays_stop : countPlays [AudioAction.stop] = 0 := rfl

theorem countPlays_stop_play (c : Nat) :
    countPlays [AudioAction.stop, AudioAction.play c] = 1 := rfl

/-- `sample.py`'s classifier inspects only the four non-thumb fingertips,
so its result is at most 4. -/
theorem count_extended_le (lm : LandmarkSet) :
    count_extended_fingers lm ≤ 4 := by
  simp only [count_extended_fingers, sampleFingerTips, List.foldl_cons,
    List.foldl_nil]
  split_ifs <;> omega

/-! ### Claim theorems -/

/-- Claim C1 (counterexample): on the literal scenario
`[(present,1,t=0), (present,1,t=0.1), (present,2,t=0.2)]` with debounce
0.3 s, `main.py` emits no play action at all — in particular neither
`play(1)` at `t=0` (the initial `last_sound_play_time = 0` makes `t=0` fall
inside the debounce window) nor `play(2)` at `t=0.2` (`main.py`'s debounce
also suppresses class changes). -/
theorem scenario_sequence_main_counterexample :
    countPlays (runMain true mainChordKeys debounce_time mainInit
      [⟨true, 1, 0⟩, ⟨true, 1, mkRat 1 10⟩, ⟨true, 2, mkRat 1 5⟩]).2 = 0 := by
  decide

/-- Claim C1 (amended): on the literal scenario `main.py` emits nothing;
on the same scenario shifted past the initial debounce window
(t = 1, 1.1, 1.2) `main.py` emits stop followed by `play(1)` at the first
event and nothing afterwards, the class change at the third event being
suppressed by the debounce; `sample.py` (cooldown 0.3 s) emits stop then
`play(1)` at `t=0`, nothing at `t=0.1`, and stop then `play(2)` at
`t=0.2` — matching the claim except that the first play is also preceded by
a stop call. -/
theorem scenario_sequence_amended :
    runMain true mainChordKeys debounce_time mainInit
        [⟨true, 1, 0⟩, ⟨true, 1, mkRat 1 10⟩, ⟨true, 2, mkRat 1 5⟩] =
      (mainInit, []) ∧
    runMain true mainChordKeys debounce_time mainInit
        [⟨true, 1, 1⟩, ⟨true, 1, mkRat 11 10⟩, ⟨true, 2, mkRat 6 5⟩] =
      (⟨1, 1⟩, [AudioAction.stop, AudioAction.play 1]) ∧
    runSample sampleChordKeys debounce_time sampleInit
        [⟨true, 1, 0⟩, ⟨true, 1, mkRat 1 10⟩, ⟨true, 2, mkRat 1 5⟩] =
      (⟨some 2, mkRat 1 5⟩,
        [AudioAction.stop, AudioAction.play 1,
         AudioAction.stop, AudioAction.play 2]) := by
  refine ⟨by decide, by decide, by decide⟩

/-- Claim C2 (counterexample): in `main.py` a hand-present event carrying
the currently sounding class never re-triggers, however much time has
elapsed — here class 1 arrives 10 s after it was played (debounce 0.3 s)
and nothing is emitted, where the claim demands stop followed by play. -/
theorem retrigger_main_counterexample :
    mainStep true mainChordKeys debounce_time ⟨1, 0⟩ ⟨true, 1, 10⟩ =
      (⟨1, 0⟩, []) := by
  decide

/-- Claim C2 (amended): the re-trigger behaviour holds for `sample.py` —
an event carrying the sounding class after the cooldown emits stop then
play and moves to `Sounding(c, now)`, and is suppressed within the
cooldown — while `main.py` never re-triggers the sounding class at any
elapsed time. -/
theorem retrigger_after_debounce :
    (∀ (chords : List Nat) (cd : ℚ) (s : SampleState) (c : Nat) (t : ℚ),
        c ∈ chords → s.lastPlayedChord = some c →
        t - s.lastPlayTime > cd →
        play_chord chords cd s c t =
          (⟨some c, t⟩, [AudioAction.stop, AudioAction.play c])) ∧
    (∀ (chords : List Nat) (cd : ℚ) (s : SampleState) (c : Nat) (t : ℚ),
        s.lastPlayedChord = some c → t - s.lastPlayTime ≤ cd →
        play_chord chords cd s c t = (s, [])) ∧
    (∀ (mk : Bool) (cs : List Nat) (db : ℚ) (s : MainState) (e : Event),
        e.handPresent = true → (e.fingers : Int) = s.lastPlayedFingers →
        mainStep mk cs db s e = (s, [])) := by
  refine ⟨?_, ?_, fun mk cs db s e hp hc => mainStep_same_class mk cs db s e hp hc⟩
  · intro chords cd s c t hm hs ht
    simp [play_chord, hm, hs, ht]
  · intro chords cd s c t hs ht
    simp [play_chord, hs, not_lt.mpr ht]

/-- Claim C2 witness: concrete instances of the three amended parts. -/
theorem retrigger_after_debounce_witness :
    play_chord sampleChordKeys chord_cooldown ⟨some 2, 0⟩ 2 2000 =
      (⟨some 2, 2000⟩, [AudioAction.stop, AudioAction.play 2]) ∧
    play_chord sampleChordKeys chord_cooldown ⟨some 2, 0⟩ 2 500 =
      (⟨some 2, 0⟩, []) ∧
    mainStep true mainChordKeys debounce_time ⟨2, 0⟩ ⟨true, 2, 10⟩ =
      (⟨2, 0⟩, []) :=
  ⟨retrigger_after_debounce.1 sampleChordKeys chord_cooldown ⟨some 2, 0⟩ 2 2000
      (by decide) rfl (by decide),
   retrigger_after_debounce.2.1 sampleChordKeys chord_cooldown ⟨some 2, 0⟩ 2 500
      rfl (by decide),
   retrigger_after_debounce.2.2 true mainChordKeys debounce_time ⟨2, 0⟩
      ⟨true, 2, 10⟩ rfl rfl⟩

/-- Claim C3 (counterexample): in `main.py` a hand-present event with
unmapped classification 0, arriving after the debounce interval while
class 1 is sounding, emits a stop (the claim says no stop is emitted) and
resets `last_played_fingers` to 0. -/
theorem unmapped_main_counterexample :
    mainStep true mainChordKeys debounce_time ⟨1, 0⟩ ⟨true, 0, 1⟩ =
      (⟨0, 0⟩, [AudioAction.stop]) := by
  decide

/-- Claim C3 (amended): in `main.py` a hand-present event with an unmapped
classification different from `last_played_fingers` emits a stop (halting
any current sample) and resets `last_played_fingers` to 0 when the debounce
interval has elapsed, and does nothing within the debounce interval; in
`sample.py` an unmapped classification produces no action and no state
change at all. -/
theorem unmapped_classification :
    (∀ (cs : List Nat) (db : ℚ) (s : MainState) (e : Event),
        e.handPresent = true → (e.fingers : Int) ≠ s.lastPlayedFingers →
        e.fingers ∉ cs → e.time - s.lastSoundPlayTime > db →
        mainStep true cs db s e =
          (⟨0, s.lastSoundPlayTime⟩, [AudioAction.stop])) ∧
    (∀ (mk : Bool) (cs : List Nat) (db : ℚ) (s : MainState) (e : Event),
        e.handPresent = true → ¬(e.time - s.lastSoundPlayTime > db) →
        mainStep mk cs db s e = (s, [])) ∧
    (∀ (chords : List Nat) (cd : ℚ) (s : SampleState) (n : Nat) (t : ℚ),
        n ∉ chords → play_chord chords cd s n t = (s, [])) := by
  refine ⟨?_, ?_, ?_⟩
  · intro cs db s e hp hne hm ht
    simp [mainStep, hp, hne, hm, ht]
  · intro mk cs db s e hp ht
    exact mainStep_within_debounce mk cs db s e hp ht
  · intro chords cd s n t hm
    simp [play_chord, hm]

/-- Claim C3 witness: concrete instances of the three amended parts. -/
theorem unmapped_classification_witness :
    mainStep true mainChordKeys debounce_time ⟨2, 0⟩ ⟨true, 0, 1⟩ =
      (⟨0, 0⟩, [AudioAction.stop]) ∧
    mainStep true mainChordKeys debounce_time ⟨2, 0⟩ ⟨true, 0, mkRat 1 5⟩ =
      (⟨2, 0⟩, []) ∧
    play_chord sampleChordKeys chord_cooldown ⟨some 2, 0⟩ 5 1 =
      (⟨some 2, 0⟩, []) :=
  ⟨unmapped_classification.1 mainChordKeys debounce_time ⟨2, 0⟩ ⟨true, 0, 1⟩
      rfl (by decide) (by decide) (by decide),
   unmapped_classification.2.1 true mainChordKeys debounce_time ⟨2, 0⟩
      ⟨true, 0, mkRat 1 5⟩ rfl (by decide),
   unmapped_classification.2.2 sampleChordKeys chord_cooldown ⟨some 2, 0⟩ 5 1
      (by decide)⟩

/-- Claim C4 (counterexample): a hand-loss event reaching `main.py` while
class 3 is sounding, 0.2 s after the play (within the 0.3 s debounce),
emits no stop at all and leaves the state sounding — the claim demands
exactly one stop and a transition to idle. -/
theorem hand_loss_main_counterexample :
    mainStep true mainChordKeys debounce_time ⟨3, 0⟩ ⟨false, 0, mkRat 1 5⟩ =
      (⟨3, 0⟩, []) := by
  decide

/-- Claim C4 (amended): in `main.py` (mixer ok, 0 unmapped) a hand-absent
event with `last_played_fingers ≠ 0` emits exactly one stop and sets
`last_played_fingers` to 0 when the debounce interval since the last play
has elapsed — this covers both the sounding states and the already-idle
state `-1`, which is therefore not a no-op — and emits nothing (state
unchanged) within the debounce interval; when `last_played_fingers = 0` a
hand-absent event emits one stop and sets it to `-1`; `sample.py` ignores
hand loss entirely. -/
theorem hand_loss_behaviour :
    (∀ (cs : List Nat) (db : ℚ) (s : MainState) (e : Event),
        e.handPresent = false → (0 : Nat) ∉ cs → s.lastPlayedFingers ≠ 0 →
        e.time - s.lastSoundPlayTime > db →
        mainStep true cs db s e =
          (⟨0, s.lastSoundPlayTime⟩, [AudioAction.stop])) ∧
    (∀ (cs : List Nat) (db : ℚ) (s : MainState) (e : Event),
        e.handPresent = false → s.lastPlayedFingers ≠ 0 →
        ¬(e.time - s.lastSoundPlayTime > db) →
        mainStep true cs db s e = (s, [])) ∧
    (∀ (cs : List Nat) (db : ℚ) (s : MainState) (e : Event),
        e.handPresent = false → s.lastPlayedFingers = 0 →
        mainStep true cs db s e =
          (⟨-1, s.lastSoundPlayTime⟩, [AudioAction.stop])) ∧
    (∀ (chords : List Nat) (cd : ℚ) (s : SampleState) (e : Event),
        e.handPresent = false → sampleLoopStep chords cd s e = (s, [])) := by
  refine ⟨?_, ?_, ?_, ?_⟩
  · intro cs db s e hp hm h0 ht
    simp [mainStep, hp, hm, Ne.symm h0, ht]
  · intro cs db s e hp h0 ht
    simp [mainStep, hp, Ne.symm h0, ht]
  · intro cs db s e hp h0
    simp [mainStep, hp, h0]
  · intro chords cd s e hp
    simp [sampleLoopStep, hp]

/-- Claim C4 witness: concrete instances of the four amended parts. -/
theorem hand_loss_behaviour_witness :
    mainStep true mainChordKeys debounce_time ⟨3, 0⟩ ⟨false, 0, 1⟩ =
      (⟨0, 0⟩, [AudioAction.stop]) ∧
    mainStep true mainChordKeys debounce_time ⟨3, 0⟩ ⟨false, 0, mkRat 1 10⟩ =
      (⟨3, 0⟩, []) ∧
    mainStep true mainChordKeys debounce_time ⟨0, 5⟩ ⟨false, 0, 6⟩ =
      (⟨-1, 5⟩, [AudioAction.stop]) ∧
    sampleLoopStep sampleChordKeys chord_cooldown ⟨some 3, 0⟩ ⟨false, 0, 1⟩ =
      (⟨some 3, 0⟩, []) :=
  ⟨hand_loss_behaviour.1 mainChordKeys debounce_time ⟨3, 0⟩ ⟨false, 0, 1⟩
      rfl (by decide) (by decide) (by decide),
   hand_loss_behaviour.2.1 mainChordKeys debounce_time ⟨3, 0⟩
      ⟨false, 0, mkRat 1 10⟩ rfl (by decide) (by decide),
   hand_loss_behaviour.2.2.1 mainChordKeys debounce_time ⟨0, 5⟩ ⟨false, 0, 6⟩
      rfl rfl,
   hand_loss_behaviour.2.2.2 sampleChordKeys chord_cooldown ⟨some 3, 0⟩
      ⟨false, 0, 1⟩ rfl⟩

/-- Claim C5 (confirmed): starting from the initial state, a mapped class
played once and then repeated within the debounce (resp. cooldown) window
yields exactly one play action over the whole sequence, in both
implementations.  (In `main.py` the first event must fall outside the
debounce window measured from the initial `last_sound_play_time = 0` for
the first play to fire at all.) -/
theorem single_play_within_debounce :
    (∀ (cs : List Nat) (db : ℚ) (c : Nat) (t1 : ℚ) (rest : List Event),
        c ∈ cs → t1 - mainInit.lastSoundPlayTime > db →
        (∀ e ∈ rest, e.handPresent = true ∧ e.fingers = c ∧ e.time - t1 ≤ db) →
        countPlays (runMain true cs db mainInit (⟨true, c, t1⟩ :: rest)).2 = 1) ∧
    (∀ (chords : List Nat) (cd : ℚ) (c : Nat) (t1 : ℚ) (rest : List Event),
        c ∈ chords → 0 < c →
        (∀ e ∈ rest, e.handPresent = true ∧ e.fingers = c ∧ e.time - t1 ≤ cd) →
        countPlays (runSample chords cd sampleInit (⟨true, c, t1⟩ :: rest)).2 = 1) := by
  constructor
  · intro cs db c t1 rest hm ht hall
    have hne : ((c : Nat) : Int) ≠ mainInit.lastPlayedFingers := by
      simp only [mainInit]; omega
    have hstep := mainStep_play cs db mainInit ⟨true, c, t1⟩ rfl hne ht hm
    have hrest := runMain_same_class true cs db c rest ⟨(c : Int), t1⟩ rfl
      fun e he => ⟨(hall e he).1, (hall e he).2.1⟩
    simp [runMain, hstep, hrest, countPlays]
  · intro chords cd c t1 rest hm h0 hall
    have hstep : sampleLoopStep chords cd sampleInit ⟨true, c, t1⟩ =
        (⟨some c, t1⟩, [AudioAction.stop, AudioAction.play c]) := by
      simp [sampleLoopStep, play_chord, sampleInit, hm, h0]
    have hrest := runSample_suppressed chords cd c rest ⟨some c, t1⟩ rfl
      fun e he => ⟨(hall e he).2.1, (hall e he).2.2⟩
    simp [runSample, hstep, hrest, countPlays]

/-- Claim C5 witness: class 3 played at t = 1 and repeated at t = 1.1 and
t = 1.2 yields one play in `main.py`; class 2 played at t = 0 and repeated
at t = 0.1 yields one play in `sample.py` (cooldown 0.3). -/
theorem single_play_within_debounce_witness :
    countPlays (runMain true mainChordKeys debounce_time mainInit
      [⟨true, 3, 1⟩, ⟨true, 3, mkRat 11 10⟩, ⟨true, 3, mkRat 6 5⟩]).2 = 1 ∧
    countPlays (runSample sampleChordKeys debounce_time sampleInit
      [⟨true, 2, 0⟩, ⟨true, 2, mkRat 1 10⟩]).2 = 1 :=
  ⟨single_play_within_debounce.1 mainChordKeys debounce_time 3 1
      [⟨true, 3, mkRat 11 10⟩, ⟨true, 3, mkRat 6 5⟩]
      (by decide) (by decide) (by decide),
   single_play_within_debounce.2 sampleChordKeys debounce_time 2 0
      [⟨true, 2, mkRat 1 10⟩] (by decide) (by decide) (by decide)⟩

/-- Claim C6 (confirmed): each loop iteration of either implementation
emits nothing, a bare stop, or a stop immediately followed by one play —
never a play without a preceding stop in the same step — and consequently
at most one sample triggered by this system is in the playing state at any
point of any event sequence. -/
theorem stop_before_play_invariant :
    (∀ (mk : Bool) (cs : List Nat) (db : ℚ) (s : MainState) (e : Event),
        (mainStep mk cs db s e).2 = [] ∨
          (mainStep mk cs db s e).2 = [AudioAction.stop] ∨
          ∃ c, (mainStep mk cs db s e).2 =
            [AudioAction.stop, AudioAction.play c]) ∧
    (∀ (chords : List Nat) (cd : ℚ) (s : SampleState) (e : Event),
        (sampleLoopStep chords cd s e).2 = [] ∨
          ∃ c, (sampleLoopStep chords cd s e).2 =
            [AudioAction.stop, AudioAction.play c]) ∧
    (∀ (mk : Bool) (cs : List Nat) (db : ℚ) (es : List Event),
        (playingAfter [] (runMain mk cs db mainInit es).2).length ≤ 1) ∧
    (∀ (chords : List Nat) (cd : ℚ) (es : List Event),
        (playingAfter [] (runSample chords cd sampleInit es).2).length ≤ 1) :=
  ⟨mainStep_shape, sampleLoopStep_shape,
   fun mk cs db es => runMain_playing mk cs db es mainInit [] (by simp),
   fun chords cd es => runSample_playing chords cd es sampleInit [] (by simp)⟩

/-- Claim C7 (confirmed): `main.py`'s classifier returns at most 5; it
equals the sum of the five per-finger indicator comparisons (tip above PIP
for the four non-thumb fingers, thumb tip above both IP and MCP); it
returns 5 when all five comparisons indicate extension and 0 when none
do. -/
theorem finger_count_characterisation (lm : LandmarkSet) :
    countFingersMain lm ≤ 5 ∧
    countFingersMain lm =
      ((if (lm 8).y < (lm 6).y then 1 else 0) +
        (if (lm 12).y < (lm 10).y then 1 else 0) +
        (if (lm 16).y < (lm 14).y then 1 else 0) +
        (if (lm 20).y < (lm 18).y then 1 else 0) +
        (if (lm 4).y < (lm 3).y ∧ (lm 4).y < (lm 2).y then 1 else 0)) ∧
    ((lm 8).y < (lm 6).y → (lm 12).y < (lm 10).y → (lm 16).y < (lm 14).y →
      (lm 20).y < (lm 18).y → (lm 4).y < (lm 3).y → (lm 4).y < (lm 2).y →
      countFingersMain lm = 5) ∧
    (¬(lm 8).y < (lm 6).y → ¬(lm 12).y < (lm 10).y →
      ¬(lm 16).y < (lm 14).y → ¬(lm 20).y < (lm 18).y →
      ¬((lm 4).y < (lm 3).y ∧ (lm 4).y < (lm 2).y) →
      countFingersMain lm = 0) := by
  refine ⟨?_, ?_, ?_, ?_⟩
  · simp only [countFingersMain, fingerTipPipPairs, List.foldl_cons,
      List.foldl_nil]
    split_ifs <;> omega
  · simp only [countFingersMain, fingerTipPipPairs, List.foldl_cons,
      List.foldl_nil]
    split_ifs <;> omega
  · intro h1 h2 h3 h4 h5 h6
    simp [countFingersMain, fingerTipPipPairs, h1, h2, h3, h4, h5, h6]
  · intro h1 h2 h3 h4 h5
    simp [countFingersMain, fingerTipPipPairs, h1, h2, h3, h4, h5]

/-- Claim C7 witness: a landmark set with every fingertip above all joints
classifies as 5, one with every fingertip below all joints classifies
as 0. -/
theorem finger_count_characterisation_witness :
    countFingersMain lmAllExtended = 5 ∧ countFingersMain lmNoneExtended = 0 :=
  ⟨(finger_count_characterisation lmAllExtended).2.2.1 (by decide) (by decide)
      (by decide) (by decide) (by decide) (by decide),
   (finger_count_characterisation lmNoneExtended).2.2.2 (by decide) (by decide)
      (by decide) (by decide) (by decide)⟩

/-- Claim C8 (confirmed): classification 0 is not a key of either static
chord map, and an event whose classification has no entry in the chord map
never produces a play action, for every timestamp and prior state; in
`sample.py` a classification of 0 produces no action at all. -/
theorem unmapped_never_plays :
    ((0 : Nat) ∉ mainChordKeys ∧ (0 : Nat) ∉ sampleChordKeys) ∧
    (∀ (mk : Bool) (cs : List Nat) (db : ℚ) (s : MainState) (e : Event),
        e.handPresent = true → e.fingers ∉ cs →
        countPlays (mainStep mk cs db s e).2 = 0) ∧
    (∀ (chords : List Nat) (cd : ℚ) (s : SampleState) (e : Event),
        e.fingers ∉ chords → countPlays (sampleLoopStep chords cd s e).2 = 0) ∧
    (∀ (chords : List Nat) (cd : ℚ) (s : SampleState) (e : Event),
        e.fingers = 0 → sampleLoopStep chords cd s e = (s, [])) := by
  refine ⟨⟨by decide, by decide⟩, ?_, ?_, ?_⟩
  · intro mk cs db s e hp hm
    have hfu : (if e.handPresent = true then e.fingers else 0) = e.fingers := by
      simp [hp]
    simp only [mainStep, hfu]
    split_ifs <;> rfl
  · intro chords cd s e hm
    simp only [sampleLoopStep, play_chord]
    split_ifs with h1 h2
    · exact absurd h2.1 hm
    · rfl
    · rfl
  · intro chords cd s e hf
    simp [sampleLoopStep, hf]

/-- Claim C8 witness: concrete unmapped events produce no play in either
implementation. -/
theorem unmapped_never_plays_witness :
    countPlays (mainStep true mainChordKeys debounce_time ⟨1, 0⟩
      ⟨true, 0, 1⟩).2 = 0 ∧
    countPlays (sampleLoopStep sampleChordKeys chord_cooldown ⟨none, 0⟩
      ⟨true, 5, 1⟩).2 = 0 ∧
    sampleLoopStep sampleChordKeys chord_cooldown ⟨none, 0⟩ ⟨true, 0, 1⟩ =
      (⟨none, 0⟩, []) :=
  ⟨unmapped_never_plays.2.1 true mainChordKeys debounce_time ⟨1, 0⟩
      ⟨true, 0, 1⟩ rfl (by decide),
   unmapped_never_plays.2.2.1 sampleChordKeys chord_cooldown ⟨none, 0⟩
      ⟨true, 5, 1⟩ (by decide),
   unmapped_never_plays.2.2.2 sampleChordKeys chord_cooldown ⟨none, 0⟩
      ⟨true, 0, 1⟩ rfl⟩

/-- Claim C9 (confirmed): with the mixer failed
(`pygame_mixer_ok = false`), `main.py`'s loop leaves the trigger state at
its initial value (`last_played_fingers = -1`) and makes no audio-API call
over any event sequence; the gesture classifier `countFingersMain` is a
separate pure function that does not depend on the mixer state. -/
theorem mixer_off_no_actions (cs : List Nat) (db : ℚ) (es : List Event) :
    runMain false cs db mainInit es = (mainInit, []) :=
  runMain_mixer_off cs db es mainInit rfl

/-- Every play action `sample.py`'s frame logic emits carries the
classifier's output, which is at most 4. -/
theorem sampleFrame_play_le (chords : List Nat) (cd : ℚ) (s : SampleState)
    (hp : Bool) (lm : LandmarkSet) (t : ℚ) (n : Nat)
    (h : AudioAction.play n ∈ (sampleFrame chords cd s hp lm t).2) :
    n ≤ 4 := by
  simp only [sampleFrame] at h
  split at h
  · split at h
    · simp only [play_chord] at h
      split at h
      · simp at h
        exact h ▸ count_extended_le lm
      · simp at h
    · simp at h
  · simp at h

/-- Claim C10 (confirmed): `sample.py`'s `count_extended_fingers` inspects
only the four non-thumb fingertips, so its result is at most 4;
consequently no event processed by its frame loop ever plays a class above
4 — in particular a chord mapped to 5 could never be played — and indeed
its chord dictionary has no key 5. -/
theorem sample_classifier_bounded :
    (∀ lm : LandmarkSet, count_extended_fingers lm ≤ 4) ∧
    (∀ (chords : List Nat) (cd : ℚ) (s : SampleState) (hp : Bool)
        (lm : LandmarkSet) (t : ℚ) (n : Nat),
        AudioAction.play n ∈ (sampleFrame chords cd s hp lm t).2 → n ≤ 4) ∧
    (5 : Nat) ∉ sampleChordKeys :=
  ⟨count_extended_le, sampleFrame_play_le, by decide⟩

/-- Claim C10 witness: with only the index fingertip raised the frame logic
plays class 1, and the bound applies to it. -/
theorem sample_classifier_bounded_witness :
    AudioAction.play 1 ∈
      (sampleFrame sampleChordKeys chord_cooldown sampleInit true
        lmIndexOnly 1).2 ∧ (1 : Nat) ≤ 4 :=
  ⟨by decide,
   sample_classifier_bounded.2.1 sampleChordKeys chord_cooldown sampleInit
      true lmIndexOnly 1 1 (by decide)⟩
